import Mathlib

/-!
Verification of the Crop Suitability Inference & Explainability Engine
(agriculture-ai-powered repository).

Shallow embedding: floating-point measurements are modelled as exact
rationals (ℚ); IEEE non-finite results (NaN / ±Infinity) can only arise
here from a zero divisor, which the `fdiv` wrapper makes explicit by
returning `none`.
-/

/-- The 7 raw environmental measurements
{N, P, K, temperature, humidity, pH, rainfall} (spec §3 RawObservation;
field catalog in src/unnamed/part_000 §2.2). -/
structure RawObservation where
  N : ℚ
  P : ℚ
  K : ℚ
  temperature : ℚ
  humidity : ℚ
  pH : ℚ
  rainfall : ℚ
deriving DecidableEq, Repr

/-- A per-feature (lower bound, upper bound) pair. -/
structure Bounds where
  lower : ℚ
  upper : ℚ
deriving DecidableEq, Repr

/-- Modelled from the spec: `DampingParameters` — one (lower, upper) pair per
raw feature, fit from the 0.5th/99.5th percentiles
(src/unnamed/part_000 §3.1 describes the winsorization; the
`WinsorizationOutlierHandler` implementation itself is not under src/). -/
structure DampingParameters where
  N : Bounds
  P : Bounds
  K : Bounds
  temperature : Bounds
  humidity : Bounds
  pH : Bounds
  rainfall : Bounds
deriving DecidableEq, Repr

/-- Clamp a value into `[lower, upper]`: winsorization caps the value at the
percentile bounds instead of dropping the sample. -/
def clampField (b : Bounds) (x : ℚ) : ℚ :=
  max b.lower (min b.upper x)

/-- Modelled from the spec: the Outlier Dampener (spec §4.1) — per-field
clamping of the 7 raw fields into their configured bounds; the
implementation is not under src/. -/
def dampen (p : DampingParameters) (r : RawObservation) : RawObservation where
  N := clampField p.N r.N
  P := clampField p.P r.P
  K := clampField p.K r.K
  temperature := clampField p.temperature r.temperature
  humidity := clampField p.humidity r.humidity
  pH := clampField p.pH r.pH
  rainfall := clampField p.rainfall r.rainfall

/-- A raw observation lies inside all the damping bounds. -/
def inBounds (p : DampingParameters) (r : RawObservation) : Prop :=
  p.N.lower ≤ r.N ∧ r.N ≤ p.N.upper ∧
  p.P.lower ≤ r.P ∧ r.P ≤ p.P.upper ∧
  p.K.lower ≤ r.K ∧ r.K ≤ p.K.upper ∧
  p.temperature.lower ≤ r.temperature ∧ r.temperature ≤ p.temperature.upper ∧
  p.humidity.lower ≤ r.humidity ∧ r.humidity ≤ p.humidity.upper ∧
  p.pH.lower ≤ r.pH ∧ r.pH ≤ p.pH.upper ∧
  p.rainfall.lower ≤ r.rainfall ∧ r.rainfall ≤ p.rainfall.upper

instance (p : DampingParameters) (r : RawObservation) : Decidable (inBounds p r) := by
  unfold inBounds; infer_instance

/-- ε-guard used by the ratio features (src/unnamed/part_000 §3.2: `1e-6`). -/
def eps : ℚ := 1 / 1000000

/-- Modelled from the spec: `ph_acidity_bucket = categorize(pH)` — a small
fixed ordinal scheme (strongly-acidic / acidic / neutral / alkaline /
strongly-alkaline) encoded as an integer (spec §4.2; the exact cut points
are not recorded under src/, only the existence of the ordinal grouping in
src/unnamed/part_000 §3.2). -/
def categorize (ph : ℚ) : ℚ :=
  if ph < 9/2 then 0
  else if ph < 6 then 1
  else if ph < 15/2 then 2
  else if ph < 17/2 then 3
  else 4

/-- `NPK_sum = N + P + K` (src/unnamed/part_000 §3.2). -/
def NPK_sum (r : RawObservation) : ℚ := r.N + r.P + r.K

/-- `NP_ratio = N / (P + 1e-6)` (src/unnamed/part_000 §3.2). -/
def NP_ratio (r : RawObservation) : ℚ := r.N / (r.P + eps)

/-- `NK_ratio = N / (K + 1e-6)` (src/unnamed/part_000 §3.2). -/
def NK_ratio (r : RawObservation) : ℚ := r.N / (r.K + eps)

/-- `PK_ratio = P / (K + 1e-6)` (src/unnamed/part_000 §3.2). -/
def PK_ratio (r : RawObservation) : ℚ := r.P / (r.K + eps)

/-- `temp_humidity_interaction = Temperature × Humidity`
(src/unnamed/part_000 §3.2). -/
def temp_humidity_interaction (r : RawObservation) : ℚ :=
  r.temperature * r.humidity

/-- `rainfall_humidity_ratio = Rainfall / (Humidity + 1e-6)`
(src/unnamed/part_000 §3.2). -/
def rainfall_humidity_ratio (r : RawObservation) : ℚ :=
  r.rainfall / (r.humidity + eps)

/-- Modelled from the spec: the Feature Engineer (spec §4.2) — the
14-dimensional feature vector: the 7 dampened raw features followed by the
7 derived features, in a fixed documented order; the per-feature formulas
are the ones recorded in src/unnamed/part_000 §3.2. -/
def engineer (r : RawObservation) : List ℚ :=
  [r.N, r.P, r.K, r.temperature, r.humidity, r.pH, r.rainfall,
   NPK_sum r, NP_ratio r, NK_ratio r, PK_ratio r,
   temp_humidity_interaction r, rainfall_humidity_ratio r,
   categorize r.pH]

/-- Guarded division: `none` exactly when the divisor is zero, which is the
only way a finite-operand IEEE division produces a non-finite result. -/
def fdiv (a b : ℚ) : Option ℚ :=
  if b = 0 then none else some (a / b)

/-- The feature engineering with the non-finiteness of each division made
explicit: `none` would mean some ratio feature divided by zero (IEEE
±Infinity / NaN). -/
def engineerChecked (r : RawObservation) : Option (List ℚ) := do
  let np ← fdiv r.N (r.P + eps)
  let nk ← fdiv r.N (r.K + eps)
  let pk ← fdiv r.P (r.K + eps)
  let rh ← fdiv r.rainfall (r.humidity + eps)
  pure [r.N, r.P, r.K, r.temperature, r.humidity, r.pH, r.rainfall,
        r.N + r.P + r.K, np, nk, pk,
        r.temperature * r.humidity, rh, categorize r.pH]

/-- Concrete damping parameters used by witnesses: every bound is [0, 300]. -/
def dampWide : DampingParameters :=
  ⟨⟨0, 300⟩, ⟨0, 300⟩, ⟨0, 300⟩, ⟨0, 300⟩, ⟨0, 300⟩, ⟨0, 300⟩, ⟨0, 300⟩⟩

/-- Concrete raw observation used by witnesses (the in-range rice scenario
from spec §8). -/
def rawRice : RawObservation :=
  ⟨85, 50, 45, 24, 82, 13/2, 220⟩

/-- Concrete observation with humidity = 0 (the spec §8 ε-guard scenario). -/
def rawDryZero : RawObservation :=
  ⟨0, 5, 5, 43, 0, 7/2, 20⟩

/- ### Suitability Classifier wrapper (spec §4.4) -/

/-- The fixed ordered catalog of 22 crop labels
(src/unnamed/part_000 §2.3 "Target Classes (22 Crop Types)"). -/
def cropLabels : List String :=
  ["rice", "maize", "chickpea", "kidneybeans", "pigeonpeas", "mothbeans",
   "mungbean", "blackgram", "lentil", "pomegranate", "banana", "mango",
   "grapes", "watermelon", "muskmelon", "apple", "orange", "papaya",
   "coconut", "cotton", "jute", "coffee"]

/-- Number of crop classes in the reference deployment. -/
def numClasses : ℕ := 22

/-- Modelled from the spec: one decision tree of the pre-trained
tree-ensemble classifier (`RandomForestClassifier`, src/unnamed/part_000
"Model Implementation Details"; the trained model artifact and its wrapper
code are not under src/). A leaf carries the per-class probability vector
of its training samples; an inner node routes on one feature against a
threshold. -/
inductive DTree where
  | leaf (dist : Fin numClasses → ℚ)
  | node (idx : ℕ) (threshold : ℚ) (lo : DTree) (hi : DTree)

/-- Evaluate one tree on a feature vector, yielding its leaf distribution. -/
def DTree.apply : DTree → List ℚ → Fin numClasses → ℚ
  | .leaf d, _ => d
  | .node i th l r, x => if x.getD i 0 ≤ th then l.apply x else r.apply x

/-- A per-class vector is a probability simplex: entries in [0,1], sum 1. -/
def isSimplex (d : Fin numClasses → ℚ) : Prop :=
  (∀ c, 0 ≤ d c ∧ d c ≤ 1) ∧ (∑ c, d c) = 1

/-- A tree is well formed when every leaf distribution is a simplex. -/
def DTree.wf : DTree → Prop
  | .leaf d => isSimplex d
  | .node _ _ l r => l.wf ∧ r.wf

/-- Modelled from the spec: the opaque pre-trained classifier is a fixed
finite ensemble of decision trees (fixed, pre-selected sub-models; no
re-sampled randomness at inference time). -/
abbrev Forest : Type := List DTree

/-- Modelled from the spec: `predict(standardized_vector14) ->
probability_distribution` — the ensemble averages the per-tree class
distributions with fixed equal weights. -/
def predictProba (f : Forest) (x : List ℚ) : Fin numClasses → ℚ :=
  fun c => ((List.map (fun t => t.apply x c) f).sum) / ((List.length f : ℕ) : ℚ)

/-- Concrete single-tree forest for witnesses: one leaf putting all mass on
class 0 ("rice"). -/
def distW : Fin numClasses → ℚ :=
  fun c => if c = (⟨0, by norm_num [numClasses]⟩ : Fin numClasses) then 1 else 0

/-- Concrete forest used by witnesses. -/
def forestW : Forest := [DTree.leaf distW]

/- ### Explainer (spec §4.6) -/

/-- Modelled from the spec: the hybrid evaluation point of the Shapley-style
path attribution — the first `i` features taken from the explained input,
the rest from the fixed baseline (e.g., the training-set mean vector). -/
def hybridPoint (x b : List ℚ) (i : ℕ) : List ℚ :=
  x.take i ++ b.drop i

/-- Modelled from the spec: the signed contribution of feature `i` — the
change in the target-class score when feature `i` switches from its
baseline value to its observed value, all earlier features already
switched (a fixed-permutation Shapley approximation over the ensemble's
decision paths; the Explainer implementation is not under src/). -/
def featureContribution (f : List ℚ → ℚ) (x b : List ℚ) (i : ℕ) : ℚ :=
  f (hybridPoint x b (i + 1)) - f (hybridPoint x b i)

/-- Modelled from the spec:
`explain(standardized_vector14, target_class) -> ordered list of
(feature, contribution)` — one signed contribution per each of the 14
features, where `f` is the target class's score (log-odds) as a function
of the standardized vector and `b` is the baseline vector. -/
def explain (f : List ℚ → ℚ) (x b : List ℚ) : List (ℕ × ℚ) :=
  (List.range 14).map (fun i => (i, featureContribution f x b i))

/- ### Normalizer, configuration, and the evaluate entry point -/

/-- Modelled from the spec: `NormalizationParameters` — per-feature
(mean, standard-deviation) pair for each of the 14 engineered features
(spec §3; the fitted `StandardScaler` artifact is not under src/). -/
structure NormalizationParameters where
  means : List ℚ
  stds : List ℚ
deriving DecidableEq, Repr

/-- Modelled from the spec: the Normalizer (spec §4.3) — `(x - mean_i) / std_i`
per component (named `normalizeVec` here because Mathlib already declares
`normalize`). -/
def normalizeVec (np : NormalizationParameters) (v : List ℚ) : List ℚ :=
  List.zipWith (fun x ms => (x - ms.1) / ms.2) v (np.means.zip np.stds)

/-- Modelled from the spec: the typed error taxonomy (spec §7). -/
inductive EngineError where
  | validationError
  | configurationError
  | unsupportedModelError
  | internalInvariantError
deriving DecidableEq, Repr

/-- Modelled from the spec: the immutable startup configuration — damping
bounds, normalization statistics, the explanation-trigger threshold
(reference default 0.5), and the attribution baseline vector. -/
structure EngineConfig where
  damping : DampingParameters
  norm : NormalizationParameters
  threshold : ℚ
  baseline : List ℚ
deriving DecidableEq, Repr

/-- Modelled from the spec: `SuitabilityResult` — evaluated crop label,
confidence in [0,1], ranked (crop, probability) list, optional
explanation (spec §3). -/
structure SuitabilityResult where
  label : String
  confidence : ℚ
  ranked : List (String × ℚ)
  explanation : Option (List (ℕ × ℚ))
deriving DecidableEq, Repr

/-- All 7 damping bounds are well formed (lower ≤ upper). -/
def boundsOk (p : DampingParameters) : Bool :=
  decide (p.N.lower ≤ p.N.upper) &&
  decide (p.P.lower ≤ p.P.upper) &&
  decide (p.K.lower ≤ p.K.upper) &&
  decide (p.temperature.lower ≤ p.temperature.upper) &&
  decide (p.humidity.lower ≤ p.humidity.upper) &&
  decide (p.pH.lower ≤ p.pH.upper) &&
  decide (p.rainfall.lower ≤ p.rainfall.upper)

/-- No degenerate (zero) training standard deviation (spec §4.3). -/
def stdsOk (np : NormalizationParameters) : Bool :=
  np.stds.all (fun s => decide (s ≠ 0))

/-- Target-class score used by ranking and explanation: the ensemble
probability of class index `c` (0 for an out-of-range index). -/
def scoreOf (forest : Forest) (c : ℕ) (v : List ℚ) : ℚ :=
  if h : c < numClasses then predictProba forest v ⟨c, h⟩ else 0

/-- The (label, probability) pairs for all classes, in catalog order. -/
def labeledProbs (forest : Forest) (z : List ℚ) : List (String × ℚ) :=
  cropLabels.zip ((List.range numClasses).map (fun i => scoreOf forest i z))

/-- `rankRel a b`: `a` is ranked before `b` — strictly larger probability,
ties broken by lexicographic label order (spec §4.5). -/
def rankRel (a b : String × ℚ) : Prop :=
  b.2 < a.2 ∨ (a.2 = b.2 ∧ a.1 ≤ b.1)

instance : DecidableRel rankRel := fun a b => by unfold rankRel; infer_instance

/-- The full ranking: all classes sorted by descending probability with the
lexicographic tie-break. -/
def rankAll (l : List (String × ℚ)) : List (String × ℚ) :=
  List.insertionSort rankRel l

/-- Open-recommendation mode: arg-max probability (first on ties). -/
def argmaxPair (l : List (String × ℚ)) : String × ℚ :=
  l.foldl (fun best c => if best.2 < c.2 then c else best) ("", 0)

/-- Targeted-evaluation mode: the probability mass of the requested crop
(0 when the label is not in the catalog). -/
def targetConfidence (l : List (String × ℚ)) (t : String) : ℚ :=
  ((l.find? (fun p => p.1 == t)).map Prod.snd).getD 0

/-- The (label, confidence) the engine reports, by mode (spec §4.5). -/
def chosenOf (forest : Forest) (z : List ℚ) (target : Option String) :
    String × ℚ :=
  match target with
  | some t => (t, targetConfidence (labeledProbs forest z) t)
  | none => argmaxPair (labeledProbs forest z)

/-- The standardized 14-vector for a raw observation: dampen, engineer,
normalize (spec §2 data flow 1→2→3). -/
def pipelineVector (cfg : EngineConfig) (r : RawObservation) : List ℚ :=
  normalizeVec cfg.norm (engineer (dampen cfg.damping r))

/-- Modelled from the spec: `evaluate(raw, target_crop) -> SuitabilityResult`
— the sole public entry point (spec §6): configuration is validated first
(inverted damping bounds or a zero standard deviation fail with
`ConfigurationError` before the classifier is consulted), then the
pipeline dampen → engineer → normalize → predict → rank runs, and an
explanation is attached exactly when the confidence falls below the
configured threshold (spec §4.6). -/
def evaluate (cfg : EngineConfig) (forest : Forest) (r : RawObservation)
    (target : Option String) : Except EngineError SuitabilityResult :=
  if !boundsOk cfg.damping then .error .configurationError
  else if !stdsOk cfg.norm then .error .configurationError
  else
    Except.ok
      { label := (chosenOf forest (pipelineVector cfg r) target).1
        confidence := (chosenOf forest (pipelineVector cfg r) target).2
        ranked := rankAll (labeledProbs forest (pipelineVector cfg r))
        explanation :=
          if (chosenOf forest (pipelineVector cfg r) target).2 < cfg.threshold
          then some (explain
              (scoreOf forest
                (cropLabels.indexOf (chosenOf forest (pipelineVector cfg r) target).1))
              (pipelineVector cfg r) cfg.baseline)
          else none }

/- ### Confidence buckets (spec §4.5) -/

/-- Modelled from the spec: the presentational confidence bucket
("very high" ≥0.9, "high" [0.7,0.9), "medium" [0.5,0.7), "low" <0.5;
the distribution report in src/unnamed/part_000 §6.1 tabulates the same
four bands). `evaluate` never consults this function: the bucket is
reporting-only. -/
def confidenceBucket (c : ℚ) : String :=
  if 9/10 ≤ c then "very high"
  else if 7/10 ≤ c then "high"
  else if 1/2 ≤ c then "medium"
  else "low"

/- ### C9 witness -/

/-- Malformed damping parameters: the N bounds are inverted (1 > 0). -/
def dampBad : DampingParameters :=
  ⟨⟨1, 0⟩, ⟨0, 300⟩, ⟨0, 300⟩, ⟨0, 300⟩, ⟨0, 300⟩, ⟨0, 300⟩, ⟨0, 300⟩⟩

/-- Identity-like normalization statistics: mean 0, std 1 for all 14. -/
def normId : NormalizationParameters :=
  ⟨List.replicate 14 0, List.replicate 14 1⟩

/-- A configuration with inverted N damping bounds. -/
def cfgBad : EngineConfig :=
  ⟨dampBad, normId, 1/2, List.replicate 14 0⟩

/- ### Reverse geocoding (src/MAP_LOCATION_DOCUMENTATION.md) -/

/-- The `raw_address` component dictionary consulted by
`reverse_geocode_location` (src/MAP_LOCATION_DOCUMENTATION.md, enhanced
version): `none` models an absent (Python-falsy) component. -/
structure RawAddress where
  village : Option String
  suburb : Option String
  city : Option String
  town : Option String
  state : Option String
  country : Option String
deriving DecidableEq, Repr

/-- The observable behaviour of the Nominatim lookup inside the `try` block:
it raises, or returns a location with an address, or returns no usable
location (Python `None`, or a location whose address is falsy). -/
inductive GeoOutcome where
  | raises
  | found (addr : RawAddress)
  | notFound
deriving DecidableEq, Repr

/-- The `address_parts` assembly of
src/MAP_LOCATION_DOCUMENTATION.md lines 534-556: village (else suburb)
prefixed with "Kelurahan ", then city (else town), then state, then
country. -/
def addressParts (a : RawAddress) : List String :=
  (match a.village with
   | some v => ["Kelurahan " ++ v]
   | none =>
     match a.suburb with
     | some s => ["Kelurahan " ++ s]
     | none => []) ++
  (match a.city with
   | some c => [c]
   | none =>
     match a.town with
     | some t => [t]
     | none => []) ++
  (match a.state with
   | some s => [s]
   | none => []) ++
  (match a.country with
   | some c => [c]
   | none => [])

/-- `reverse_geocode_location`
(src/MAP_LOCATION_DOCUMENTATION.md lines 527-557) as a function of the
geocoder outcome: on an exception the `except` arm returns
"Unknown Location"; on a location with an address it returns the
comma-joined parts; when the lookup yields no usable location the Python
function falls off the end of the `try` block and implicitly returns
`None` — modelled as `none`. -/
def reverseGeocodeLocation : GeoOutcome → Option String
  | .raises => some "Unknown Location"
  | .found a => some (String.intercalate ", " (addressParts a))
  | .notFound => none

/- ### C5 witness: a full concrete evaluation -/

/-- Leaf distribution with 22 distinct probabilities (22-c)/253 summing
to 1, highest on "rice". -/
def distV : Fin numClasses → ℚ := fun c => ((22 - (c : ℕ) : ℕ) : ℚ) / 253

/-- Single-tree forest carrying `distV`. -/
def forestV : Forest := [DTree.leaf distV]

/-- Well-formed configuration with wide bounds, identity normalization and
a 0.01 explanation threshold. -/
def cfgV : EngineConfig :=
  ⟨dampWide, normId, 1/100, List.replicate 14 0⟩

/-- The result `evaluate cfgV forestV rawRice (some "rice")` produces. -/
def resV : SuitabilityResult where
  label := "rice"
  confidence := 22/253
  ranked :=
    [("rice", 22/253), ("maize", 21/253), ("chickpea", 20/253),
     ("kidneybeans", 19/253), ("pigeonpeas", 18/253), ("mothbeans", 17/253),
     ("mungbean", 16/253), ("blackgram", 15/253), ("lentil", 14/253),
     ("pomegranate", 13/253), ("banana", 12/253), ("mango", 11/253),
     ("grapes", 10/253), ("watermelon", 9/253), ("muskmelon", 8/253),
     ("apple", 7/253), ("orange", 6/253), ("papaya", 5/253),
     ("coconut", 4/253), ("cotton", 3/253), ("jute", 2/253),
     ("coffee", 1/253)]
  explanation := none

/- ### Helper lemmas on clamping -/

theorem clampField_idem (b : Bounds) (x : ℚ) :
    clampField b (clampField b x) = clampField b x := by
  unfold clampField
  rcases le_total (min b.upper x) b.lower with h | h
  · rw [max_eq_left h]
    rcases le_total b.upper b.lower with h' | h'
    · rw [min_eq_left h', max_eq_left h']
    · rw [min_eq_right h', max_self]
  · rw [max_eq_right h, min_eq_right (min_le_left _ _), max_eq_right h]

theorem clampField_of_mem (b : Bounds) (x : ℚ)
    (hl : b.lower ≤ x) (hu : x ≤ b.upper) : clampField b x = x := by
  unfold clampField
  rw [min_eq_right hu, max_eq_right hl]

/-- C7: `dampen(dampen(x)) == dampen(x)` — per-field clamping into
`[lower_bound, upper_bound]` is idempotent, and values already inside the
bounds pass through unchanged. -/
theorem C7_dampen_idempotent (p : DampingParameters) (r : RawObservation) :
    dampen p (dampen p r) = dampen p r ∧
    (inBounds p r → dampen p r = r) := by
  constructor
  · simp [dampen, clampField_idem]
  · intro h
    obtain ⟨h1, h2, h3, h4, h5, h6, h7, h8, h9, h10, h11, h12, h13, h14⟩ := h
    simp [dampen, clampField_of_mem _ _ h1 h2, clampField_of_mem _ _ h3 h4,
      clampField_of_mem _ _ h5 h6, clampField_of_mem _ _ h7 h8,
      clampField_of_mem _ _ h9 h10, clampField_of_mem _ _ h11 h12,
      clampField_of_mem _ _ h13 h14]

/-- Witness for C7 at the concrete rice observation, which lies inside the
wide bounds, so clamping both is idempotent and passes it through. -/
theorem C7_dampen_idempotent_witness :
    dampen dampWide (dampen dampWide rawRice) = dampen dampWide rawRice ∧
    dampen dampWide rawRice = rawRice :=
  ⟨(C7_dampen_idempotent dampWide rawRice).1,
   (C7_dampen_idempotent dampWide rawRice).2
     (by norm_num [inBounds, rawRice, dampWide])⟩

/-- C2: the Feature Engineer computes, from the dampened 7-field input, the
7 derived features by exactly the documented formulas, in the fixed order,
with ε = 1e-6: NPK_sum = N+P+K, NP_ratio = N/(P+ε), NK_ratio = N/(K+ε),
PK_ratio = P/(K+ε), temp_humidity_interaction = temperature·humidity,
rainfall_humidity_ratio = rainfall/(humidity+ε),
ph_acidity_bucket = categorize(pH). -/
theorem C2_feature_formulas (r : RawObservation) :
    engineer r =
      [r.N, r.P, r.K, r.temperature, r.humidity, r.pH, r.rainfall,
       r.N + r.P + r.K,
       r.N / (r.P + 1/1000000),
       r.N / (r.K + 1/1000000),
       r.P / (r.K + 1/1000000),
       r.temperature * r.humidity,
       r.rainfall / (r.humidity + 1/1000000),
       categorize r.pH] ∧
    eps = 1/1000000 := by
  constructor
  · simp [engineer, NPK_sum, NP_ratio, NK_ratio, PK_ratio,
      temp_humidity_interaction, rainfall_humidity_ratio, eps]
  · rfl

/-- C3: for finite input with P ≥ 0, K ≥ 0, humidity ≥ 0 (humidity = 0
included), the engineered vector is exactly 14 finite values — every
ε-guarded division has a nonzero divisor (`engineerChecked` succeeds), and
the vector has length 14. -/
theorem C3_no_nan (r : RawObservation)
    (hP : 0 ≤ r.P) (hK : 0 ≤ r.K) (hH : 0 ≤ r.humidity) :
    engineerChecked r = some (engineer r) ∧ (engineer r).length = 14 := by
  have hPe : r.P + eps ≠ 0 := by
    have : (0 : ℚ) < r.P + eps := by
      have : (0 : ℚ) < eps := by norm_num [eps]
      linarith
    exact ne_of_gt this
  have hKe : r.K + eps ≠ 0 := by
    have : (0 : ℚ) < r.K + eps := by
      have : (0 : ℚ) < eps := by norm_num [eps]
      linarith
    exact ne_of_gt this
  have hHe : r.humidity + eps ≠ 0 := by
    have : (0 : ℚ) < r.humidity + eps := by
      have : (0 : ℚ) < eps := by norm_num [eps]
      linarith
    exact ne_of_gt this
  refine ⟨?_, rfl⟩
  simp [engineerChecked, fdiv, hPe, hKe, hHe, engineer, NPK_sum, NP_ratio,
    NK_ratio, PK_ratio, temp_humidity_interaction, rainfall_humidity_ratio]

/-- Witness for C3 at humidity = 0: the ε-guard keeps every feature finite. -/
theorem C3_no_nan_witness :
    (0 ≤ rawDryZero.P ∧ 0 ≤ rawDryZero.K ∧ 0 ≤ rawDryZero.humidity) ∧
    engineerChecked rawDryZero = some (engineer rawDryZero) ∧
    (engineer rawDryZero).length = 14 :=
  ⟨by norm_num [rawDryZero],
   C3_no_nan rawDryZero (by norm_num [rawDryZero]) (by norm_num [rawDryZero])
     (by norm_num [rawDryZero])⟩

/- ### Simplex lemmas -/

theorem DTree.apply_isSimplex :
    ∀ t : DTree, t.wf → ∀ x : List ℚ, isSimplex (t.apply x) := by
  intro t
  induction t with
  | leaf d => intro hw _; exact hw
  | node i th l r ihl ihr =>
    intro hw x
    obtain ⟨hl, hr⟩ := hw
    simp only [DTree.apply]
    split
    · exact ihl hl x
    · exact ihr hr x

theorem list_sum_le_length (l : List ℚ) (h : ∀ a ∈ l, a ≤ 1) :
    l.sum ≤ (l.length : ℚ) := by
  induction l with
  | nil => simp
  | cons a t ih =>
    simp only [List.sum_cons, List.length_cons]
    have ha := h a (by simp)
    have ht := ih (fun b hb => h b (by simp [hb]))
    push_cast
    linarith

theorem sum_classes_of_list (l : List (Fin numClasses → ℚ)) :
    (∑ c, (l.map (fun d => d c)).sum) = (l.map (fun d => ∑ c, d c)).sum := by
  induction l with
  | nil => simp
  | cons a t ih => simp [Finset.sum_add_distrib, ih]

/-- C4: for every standardized 14-vector, the classifier wrapper returns a
probability distribution over the fixed finite set of 22 crop labels with
every entry in [0,1] and total mass 1.0 within ±1e-6. -/
theorem C4_probability_simplex (f : Forest) (x : List ℚ)
    (hne : f ≠ ([] : List DTree)) (hwf : ∀ t ∈ (f : List DTree), t.wf) :
    cropLabels.length = numClasses ∧
    (∀ c, 0 ≤ predictProba f x c ∧ predictProba f x c ≤ 1) ∧
    |(∑ c, predictProba f x c) - 1| ≤ 1/1000000 := by
  have hlen : 0 < ((List.length f : ℕ) : ℚ) := by
    have : (f : List DTree) ≠ [] := hne
    have hpos : 0 < List.length f := List.length_pos.mpr this
    exact_mod_cast hpos
  refine ⟨rfl, ?_, ?_⟩
  · intro c
    have hterms : ∀ a ∈ List.map (fun t => t.apply x c) f, 0 ≤ a ∧ a ≤ 1 := by
      intro a ha
      obtain ⟨t, ht, rfl⟩ := List.mem_map.mp ha
      exact (DTree.apply_isSimplex t (hwf t ht) x).1 c
    have h0 : 0 ≤ (List.map (fun t => t.apply x c) f).sum :=
      List.sum_nonneg (fun a ha => (hterms a ha).1)
    have h1 : (List.map (fun t => t.apply x c) f).sum ≤ ((List.length f : ℕ) : ℚ) := by
      have h := list_sum_le_length (List.map (fun t => t.apply x c) f)
        (fun a ha => (hterms a ha).2)
      simp only [List.length_map] at h
      exact h
    unfold predictProba
    constructor
    · exact div_nonneg h0 (le_of_lt hlen)
    · rw [div_le_one hlen]; exact h1
  · have hswap := sum_classes_of_list (List.map (fun t => t.apply x) f)
    have heach : (List.map (fun t => t.apply x) f).map (fun d => ∑ c, d c) =
        (f : List DTree).map (fun _ => (1 : ℚ)) := by
      rw [List.map_map]
      refine List.map_congr_left ?_
      intro t ht
      exact (DTree.apply_isSimplex t (hwf t ht) x).2
    have hsum : (∑ c, predictProba f x c) = 1 := by
      unfold predictProba
      rw [← Finset.sum_div]
      have hcols : ∀ c : Fin numClasses,
          (List.map (fun t => t.apply x c) f) =
          ((List.map (fun t => t.apply x) f).map (fun d => d c)) := by
        intro c; rw [List.map_map]; rfl
      calc (∑ c, (List.map (fun t => t.apply x c) f).sum) / ((List.length f : ℕ) : ℚ)
          = (∑ c, ((List.map (fun t => t.apply x) f).map (fun d => d c)).sum) /
              ((List.length f : ℕ) : ℚ) := by
            congr 1
            exact Finset.sum_congr rfl (fun c _ => by rw [hcols c])
        _ = ((List.map (fun t => t.apply x) f).map (fun d => ∑ c, d c)).sum /
              ((List.length f : ℕ) : ℚ) := by rw [hswap]
        _ = (((f : List DTree).map (fun _ => (1 : ℚ))).sum) /
              ((List.length f : ℕ) : ℚ) := by rw [heach]
        _ = 1 := by
            rw [List.map_const', List.sum_replicate, nsmul_eq_mul, mul_one]
            exact div_self (ne_of_gt hlen)
    rw [hsum]
    norm_num

theorem distW_isSimplex : isSimplex distW := by
  constructor
  · intro c
    unfold distW
    split_ifs <;> norm_num
  · simp [distW, Finset.sum_ite_eq']

/-- Witness for C4 at a concrete one-tree forest and the zero vector. -/
theorem C4_probability_simplex_witness :
    (forestW ≠ ([] : List DTree) ∧ ∀ t ∈ (forestW : List DTree), t.wf) ∧
    ((∀ c, 0 ≤ predictProba forestW (List.replicate 14 0) c ∧
        predictProba forestW (List.replicate 14 0) c ≤ 1) ∧
     |(∑ c, predictProba forestW (List.replicate 14 0) c) - 1| ≤ 1/1000000) := by
  have hne : forestW ≠ ([] : List DTree) := by simp [forestW]
  have hwf : ∀ t ∈ (forestW : List DTree), t.wf := by
    intro t ht
    have : t = DTree.leaf distW := by simpa [forestW] using ht
    rw [this]
    exact distW_isSimplex
  exact ⟨⟨hne, hwf⟩,
    (C4_probability_simplex forestW (List.replicate 14 0) hne hwf).2⟩

theorem telescope_sum (g : ℕ → ℚ) (n : ℕ) :
    ((List.range n).map (fun i => g (i + 1) - g i)).sum = g n - g 0 := by
  induction n with
  | zero => simp
  | succ m ih =>
    rw [List.range_succ, List.map_append, List.sum_append, ih]
    simp

/-- C1: whenever the Explainer produces an explanation for a target class,
the 14 signed per-feature contributions sum to the difference between the
target class's score at the explained input and at the baseline, within
the 1e-3 tolerance (here the additivity is exact, so the defect is 0). -/
theorem C1_explainer_additivity (f : List ℚ → ℚ) (x b : List ℚ)
    (hx : x.length = 14) (hb : b.length = 14) :
    |((explain f x b).map Prod.snd).sum - (f x - f b)| < 1/1000 := by
  have hmap : (explain f x b).map Prod.snd =
      (List.range 14).map (fun i => featureContribution f x b i) := by
    simp [explain, List.map_map, Function.comp]
  have h0 : hybridPoint x b 0 = b := by simp [hybridPoint]
  have h14 : hybridPoint x b 14 = x := by
    unfold hybridPoint
    rw [List.take_of_length_le (by rw [hx]), List.drop_eq_nil_of_le (by rw [hb]),
      List.append_nil]
  have htel := telescope_sum (fun i => f (hybridPoint x b i)) 14
  rw [hmap]
  unfold featureContribution
  rw [htel, h0, h14]
  norm_num

/-- Witness for C1: a concrete score function and concrete 14-vectors. -/
theorem C1_explainer_additivity_witness :
    ((List.replicate 14 (1 : ℚ)).length = 14 ∧
     (List.replicate 14 (0 : ℚ)).length = 14) ∧
    |((explain (fun v => v.getD 0 0) (List.replicate 14 (1 : ℚ))
        (List.replicate 14 (0 : ℚ))).map Prod.snd).sum -
      ((fun v : List ℚ => v.getD 0 0) (List.replicate 14 (1 : ℚ)) -
       (fun v : List ℚ => v.getD 0 0) (List.replicate 14 (0 : ℚ)))| < 1/1000 :=
  ⟨⟨by simp, by simp⟩,
   C1_explainer_additivity (fun v => v.getD 0 0) _ _ (by simp) (by simp)⟩

/-- C5: whenever `evaluate` returns a SuitabilityResult, an explanation is
present iff the confidence is strictly below the configured threshold. -/
theorem C5_threshold_behavior (cfg : EngineConfig) (forest : Forest)
    (r : RawObservation) (target : Option String) (res : SuitabilityResult)
    (h : evaluate cfg forest r target = Except.ok res) :
    res.explanation.isSome = true ↔ res.confidence < cfg.threshold := by
  unfold evaluate at h
  split at h
  · exact absurd h (by simp)
  · split at h
    · exact absurd h (by simp)
    · rw [Except.ok.injEq] at h
      subst h
      dsimp only
      split_ifs with hc
      · simpa using hc
      · simpa using hc

/-- C6: `evaluate` is a pure function of its explicit inputs — the same
startup configuration and raw observation always produce the identical
SuitabilityResult (there is no randomness at inference time in the
embedding; the deployed model fixes `random_state=42`,
src/unnamed/part_000 "Model Implementation Details"). -/
theorem C6_determinism (cfg : EngineConfig) (forest : Forest)
    (r : RawObservation) (target : Option String) :
    evaluate cfg forest r target = evaluate cfg forest r target := rfl

/-- C9: if any raw field's damping bounds are inverted
(lower_bound > upper_bound), `evaluate` fails with `ConfigurationError`;
the conclusion holds for every forest, so no prediction is attempted. -/
theorem C9_config_error (cfg : EngineConfig) (forest : Forest)
    (r : RawObservation) (target : Option String)
    (h : cfg.damping.N.upper < cfg.damping.N.lower ∨
         cfg.damping.P.upper < cfg.damping.P.lower ∨
         cfg.damping.K.upper < cfg.damping.K.lower ∨
         cfg.damping.temperature.upper < cfg.damping.temperature.lower ∨
         cfg.damping.humidity.upper < cfg.damping.humidity.lower ∨
         cfg.damping.pH.upper < cfg.damping.pH.lower ∨
         cfg.damping.rainfall.upper < cfg.damping.rainfall.lower) :
    evaluate cfg forest r target = Except.error EngineError.configurationError := by
  have hb : boundsOk cfg.damping = false := by
    unfold boundsOk
    rcases h with h | h | h | h | h | h | h <;>
      simp [decide_eq_false (not_le.mpr h)]
  unfold evaluate
  rw [hb]
  simp

/-- C8: the reported bucket is "very high" exactly on [0.9,∞), "high"
exactly on [0.7,0.9), "medium" exactly on [0.5,0.7), and "low" exactly on
(-∞,0.5); it is purely presentational (`evaluate` does not reference it). -/
theorem C8_confidence_buckets (c : ℚ) :
    (confidenceBucket c = "very high" ↔ 9/10 ≤ c) ∧
    (confidenceBucket c = "high" ↔ 7/10 ≤ c ∧ c < 9/10) ∧
    (confidenceBucket c = "medium" ↔ 1/2 ≤ c ∧ c < 7/10) ∧
    (confidenceBucket c = "low" ↔ c < 1/2) := by
  unfold confidenceBucket
  split_ifs with h1 h2 h3
  · refine ⟨⟨fun _ => h1, fun _ => rfl⟩, ⟨?_, ?_⟩, ⟨?_, ?_⟩, ⟨?_, ?_⟩⟩
    · intro hx; exact absurd hx (by decide)
    · intro hx; exfalso; linarith [hx.2]
    · intro hx; exact absurd hx (by decide)
    · intro hx; exfalso; linarith [hx.2]
    · intro hx; exact absurd hx (by decide)
    · intro hx; exfalso; linarith
  · rw [not_le] at h1
    refine ⟨⟨?_, ?_⟩, ⟨fun _ => ⟨h2, h1⟩, fun _ => rfl⟩, ⟨?_, ?_⟩, ⟨?_, ?_⟩⟩
    · intro hx; exact absurd hx (by decide)
    · intro hx; exfalso; linarith
    · intro hx; exact absurd hx (by decide)
    · intro hx; exfalso; linarith [hx.2]
    · intro hx; exact absurd hx (by decide)
    · intro hx; exfalso; linarith
  · rw [not_le] at h1 h2
    refine ⟨⟨?_, ?_⟩, ⟨?_, ?_⟩, ⟨fun _ => ⟨h3, h2⟩, fun _ => rfl⟩, ⟨?_, ?_⟩⟩
    · intro hx; exact absurd hx (by decide)
    · intro hx; exfalso; linarith
    · intro hx; exact absurd hx (by decide)
    · intro hx; exfalso; linarith [hx.1]
    · intro hx; exact absurd hx (by decide)
    · intro hx; exfalso; linarith
  · rw [not_le] at h1 h2 h3
    refine ⟨⟨?_, ?_⟩, ⟨?_, ?_⟩, ⟨?_, ?_⟩, ⟨fun _ => h3, fun _ => rfl⟩⟩
    · intro hx; exact absurd hx (by decide)
    · intro hx; exfalso; linarith
    · intro hx; exact absurd hx (by decide)
    · intro hx; exfalso; linarith [hx.1]
    · intro hx; exact absurd hx (by decide)
    · intro hx; exfalso; linarith [hx.1]

/-- Witness for C9: with the inverted N bounds, `evaluate` fails with
`ConfigurationError` (for the empty forest — the model is never consulted). -/
theorem C9_config_error_witness :
    cfgBad.damping.N.upper < cfgBad.damping.N.lower ∧
    evaluate cfgBad ([] : List DTree) rawRice none =
      Except.error EngineError.configurationError :=
  ⟨by norm_num [cfgBad, dampBad],
   C9_config_error cfgBad ([] : List DTree) rawRice none
     (Or.inl (by norm_num [cfgBad, dampBad]))⟩

/-- C10 counterexample: when the lookup succeeds but yields no usable
location, `reverse_geocode_location` returns Python `None` — not a string
— so the claim that it returns a string for every input is false. -/
theorem C10_counterexample :
    reverseGeocodeLocation GeoOutcome.notFound = none := rfl

/-- C10 (amended): `reverse_geocode_location` never raises; it returns
"Unknown Location" on any exception and the comma-joined address
components (village/suburb prefixed "Kelurahan", then city/town, state,
country) on a successful lookup with an address — but it returns `None`
(no string) when the lookup succeeds without a usable location. -/
theorem C10_reverse_geocode_amended :
    reverseGeocodeLocation GeoOutcome.raises = some "Unknown Location" ∧
    reverseGeocodeLocation GeoOutcome.notFound = none ∧
    (∀ a : RawAddress, reverseGeocodeLocation (GeoOutcome.found a) =
      some (String.intercalate ", " (addressParts a))) ∧
    reverseGeocodeLocation (GeoOutcome.found
      ⟨some "Soklat", none, some "Subang", none, some "Jawa Barat", some "Indonesia"⟩) =
      some "Kelurahan Soklat, Subang, Jawa Barat, Indonesia" := by
  refine ⟨rfl, rfl, fun a => rfl, ?_⟩
  rfl

set_option maxHeartbeats 4000000 in
/-- Witness for C5: the concrete evaluation returns `resV`, whose
explanation is absent and whose confidence 22/253 is not below the 1/100
threshold. -/
theorem C5_threshold_behavior_witness :
    evaluate cfgV forestV rawRice (some "rice") = Except.ok resV ∧
    (resV.explanation.isSome = true ↔ resV.confidence < cfgV.threshold) := by
  have hok : evaluate cfgV forestV rawRice (some "rice") = Except.ok resV := by
    norm_num [evaluate, cfgV, forestV, resV, dampWide, normId, boundsOk, stdsOk,
      chosenOf, targetConfidence, labeledProbs, scoreOf, predictProba,
      DTree.apply, distV, cropLabels, rankAll, rankRel, List.insertionSort,
      List.orderedInsert, List.range_succ, numClasses, List.replicate,
      List.find?]
  exact ⟨hok, C5_threshold_behavior cfgV forestV rawRice (some "rice") resV hok⟩
